import Mathlib

/-!
# Per-frame update of the model viewer (`models_loading.c`)

A shallow embedding of the update half of the main loop of `main`:
camera update, drag and drop handling, F3 handling and click handling, in
the order of the source.  The engine (raylib) is not part of the sources:
its record types that the program never looks into (`Mesh`, `Texture`,
`BoundingBox`, `Ray`) are type parameters, its functions are fields of
`Engine` (the ones that depend only on their arguments and on the files on
disk) and of `Frame` (the ones that report the input of one frame).
C `float` values are rationals; every float literal of the source is an
integer.  C arrays reached through a pointer (`meshes`, `materials`,
`maps`, `paths`) are total functions of the index.
-/

namespace ModelsLoading

/-! ## Data model -/

/-- Engine record `Vector2` (a screen position). -/
structure Vector2 where
  x : ℚ
  y : ℚ
  deriving DecidableEq

/-- Engine record `Vector3`, as the source builds it: `(Vector3){ x, y, z }`. -/
structure Vector3 where
  x : ℚ
  y : ℚ
  z : ℚ
  deriving DecidableEq

/-- Engine record `Camera` (`Camera3D`) with the five fields the source assigns. -/
structure Camera where
  position : Vector3
  target : Vector3
  up : Vector3
  fovy : ℚ
  projection : Int
  deriving DecidableEq

/-- Modelled from the spec: the engine header `raylib.h` is not part of the sources;
`CAMERA_PERSPECTIVE` is a value of its projection enumeration, taken with the engine's numbering. -/
def CAMERA_PERSPECTIVE : Int := 0

/-- Modelled from the spec: the engine header `raylib.h` is not part of the sources;
the free-fly mode is one of the two distinct camera modes, taken with the engine's numbering. -/
def CAMERA_FREE : Int := 1

/-- Modelled from the spec: the engine header `raylib.h` is not part of the sources;
the orbital mode is one of the two distinct camera modes, taken with the engine's numbering. -/
def CAMERA_ORBITAL : Int := 2

/-- Modelled from the spec: the engine header `raylib.h` is not part of the sources;
`MATERIAL_MAP_DIFFUSE` is the index of the diffuse map in a material's `maps`. -/
def MATERIAL_MAP_DIFFUSE : Nat := 0

/-- Engine record `MaterialMap`; the source only writes its `texture`. -/
structure MaterialMap (Texture : Type) where
  texture : Texture

/-- Engine record `Material`; the source only indexes its `maps`. -/
structure Material (Texture : Type) where
  maps : Nat → MaterialMap Texture

/-- Engine record `Model`; the source only indexes its `meshes` and `materials`. -/
structure Model (Mesh Texture : Type) where
  meshes : Nat → Mesh
  materials : Nat → Material Texture

/-- Engine record `FilePathList`: `count` paths, `paths[i]`. -/
structure FilePathList where
  count : Nat
  paths : Nat → String

/-- The engine functions the update calls whose result depends only on the
arguments (and, for the loaders, on the files on disk). -/
structure Engine (Mesh Texture BoundingBox Ray : Type) where
  LoadModel : String → Model Mesh Texture
  LoadTexture : String → Texture
  GetMeshBoundingBox : Mesh → BoundingBox
  GetMouseRay : Vector2 → Camera → Ray
  /-- The `hit` field of `GetRayCollisionBox(ray, box)`. -/
  GetRayCollisionBoxHit : Ray → BoundingBox → Bool
  IsFileExtension : String → String → Bool

/-- What the engine reports during one frame. -/
structure Frame where
  IsCursorHidden : Bool
  /-- The camera `UpdateCamera(&camera, mode)` leaves behind, for this frame's input. -/
  UpdateCamera : Camera → Int → Camera
  IsFileDropped : Bool
  LoadDroppedFiles : FilePathList
  /-- The value of `IsKeyPressed(KEY_F3)`. -/
  IsKeyPressedF3 : Bool
  /-- The value of `IsMouseButtonPressed(MOUSE_BUTTON_LEFT)`. -/
  IsMouseButtonPressedLeft : Bool
  GetMousePosition : Vector2

/-- The variables of `main` that the update reads and writes.  (`ray` is
assigned before each of its uses, `model_intern` and the positions are never
assigned in the loop.) -/
structure State (Mesh Texture BoundingBox : Type) where
  spin : Bool
  camera : Camera
  camera_mode : Int
  selected : Bool
  model : Model Mesh Texture
  texture : Texture
  bounds : BoundingBox

section Program

variable {Mesh Texture BoundingBox Ray : Type}

/-- The value of `(Camera3D){ 0 }`. -/
def Camera.zero : Camera :=
  ⟨⟨0, 0, 0⟩, ⟨0, 0, 0⟩, ⟨0, 0, 0⟩, 0, 0⟩

/-- The assignment `m.materials[0].maps[MATERIAL_MAP_DIFFUSE].texture = t`. -/
def setDiffuseTexture (m : Model Mesh Texture) (t : Texture) : Model Mesh Texture :=
  { m with
    materials := Function.update m.materials 0
      { m.materials 0 with
        maps := Function.update (m.materials 0).maps MATERIAL_MAP_DIFFUSE
          { (m.materials 0).maps MATERIAL_MAP_DIFFUSE with texture := t } } }

/-- The value of `m.materials[0].maps[MATERIAL_MAP_DIFFUSE].texture`. -/
def diffuseTexture (m : Model Mesh Texture) : Texture :=
  ((m.materials 0).maps MATERIAL_MAP_DIFFUSE).texture

/-- The state at the first test of the loop condition (lines 43-72). -/
def initial (E : Engine Mesh Texture BoundingBox Ray) : State Mesh Texture BoundingBox :=
  let camera : Camera :=
    { Camera.zero with
      position := ⟨100, 60, 80⟩
      target := ⟨0, 10, 0⟩
      up := ⟨0, 1, 0⟩
      fovy := 45
      projection := CAMERA_PERSPECTIVE }
  let model := E.LoadModel "9_brain/source/test.obj"
  let texture := E.LoadTexture "9_brain/textures/test_Albedo.png"
  let model := setDiffuseTexture model texture
  { spin := true
    camera := camera
    camera_mode := CAMERA_ORBITAL
    selected := false
    model := model
    texture := texture
    bounds := E.GetMeshBoundingBox (model.meshes 0) }

/-- Line 84: `if (IsCursorHidden()) UpdateCamera(&camera, camera_mode);`. -/
def cameraUpdate (f : Frame) (s : State Mesh Texture BoundingBox) :
    State Mesh Texture BoundingBox :=
  if f.IsCursorHidden then { s with camera := f.UpdateCamera s.camera s.camera_mode } else s

/-- The test of lines 93-98: the path has one of the model file extensions. -/
def isModelFile (E : Engine Mesh Texture BoundingBox Ray) (path : String) : Bool :=
  E.IsFileExtension path ".obj" ||
  E.IsFileExtension path ".gltf" ||
  E.IsFileExtension path ".glb" ||
  E.IsFileExtension path ".vox" ||
  E.IsFileExtension path ".iqm" ||
  E.IsFileExtension path ".m3d"

/-- Lines 87-118: load a new model or texture on drag and drop. -/
def dropHandling (E : Engine Mesh Texture BoundingBox Ray) (f : Frame)
    (s : State Mesh Texture BoundingBox) : State Mesh Texture BoundingBox :=
  if f.IsFileDropped then
    let droppedFiles := f.LoadDroppedFiles
    if droppedFiles.count = 1 then
      if isModelFile E (droppedFiles.paths 0) then
        let model := E.LoadModel (droppedFiles.paths 0)
        let model := setDiffuseTexture model s.texture
        { s with model := model, bounds := E.GetMeshBoundingBox (model.meshes 0) }
      else if E.IsFileExtension (droppedFiles.paths 0) ".png" then
        let texture := E.LoadTexture (droppedFiles.paths 0)
        { s with texture := texture, model := setDiffuseTexture s.model texture }
      else s
    else s
  else s

/-- Lines 120-143: change the camera mode on F3. -/
def f3Handling (f : Frame) (s : State Mesh Texture BoundingBox) :
    State Mesh Texture BoundingBox :=
  if f.IsKeyPressedF3 then
    let spin := !s.spin
    let camera : Camera :=
      { Camera.zero with
        target := ⟨0, 0, 0⟩
        up := ⟨0, 1, 0⟩
        fovy := 45
        projection := CAMERA_PERSPECTIVE }
    if spin then
      { s with
        spin := spin
        camera := { camera with position := ⟨100, 60, 80⟩ }
        camera_mode := CAMERA_ORBITAL }
    else
      { s with
        spin := spin
        camera := { camera with position := ⟨60, 50, 80⟩ }
        camera_mode := CAMERA_FREE }
  else s

/-- The test of line 149, with the ray of line 147: the mouse ray through the
current camera hits `bounds`. -/
def rayHitsBounds (E : Engine Mesh Texture BoundingBox Ray) (f : Frame)
    (s : State Mesh Texture BoundingBox) : Bool :=
  E.GetRayCollisionBoxHit (E.GetMouseRay f.GetMousePosition s.camera) s.bounds

/-- Lines 145-161: select the model on a mouse click. -/
def clickHandling (E : Engine Mesh Texture BoundingBox Ray) (f : Frame)
    (s : State Mesh Texture BoundingBox) : State Mesh Texture BoundingBox :=
  if f.IsMouseButtonPressedLeft then
    if rayHitsBounds E f s then
      { s with
        selected := !s.selected
        camera :=
          { Camera.zero with
            position := ⟨60, 50, 80⟩
            target := ⟨0, 10, 0⟩
            up := ⟨0, 1, 0⟩
            fovy := 45
            projection := CAMERA_PERSPECTIVE }
        camera_mode := CAMERA_FREE }
    else { s with selected := false }
  else s

/-- The state in which the click of line 145 is handled: after the camera
update, the drop handling and the F3 handling of the frame. -/
def beforeClick (E : Engine Mesh Texture BoundingBox Ray) (f : Frame)
    (s : State Mesh Texture BoundingBox) : State Mesh Texture BoundingBox :=
  f3Handling f (dropHandling E f (cameraUpdate f s))

/-- The update part of one iteration of the main loop (lines 84-161). -/
def frameUpdate (E : Engine Mesh Texture BoundingBox Ray) (f : Frame)
    (s : State Mesh Texture BoundingBox) : State Mesh Texture BoundingBox :=
  clickHandling E f (beforeClick E f s)

/-- The state after the frames of a list, the head first. -/
def run (E : Engine Mesh Texture BoundingBox Ray) :
    List Frame → State Mesh Texture BoundingBox → State Mesh Texture BoundingBox
  | [], s => s
  | f :: fs, s => run E fs (frameUpdate E f s)

/-- The states the loop can be in at the top of an iteration. -/
inductive Reachable (E : Engine Mesh Texture BoundingBox Ray) :
    State Mesh Texture BoundingBox → Prop
  | start : Reachable E (initial E)
  | frame (f : Frame) (s : State Mesh Texture BoundingBox) :
      Reachable E s → Reachable E (frameUpdate E f s)

end Program

/-! ## A concrete engine and concrete frames

Meshes, textures and boxes are named by the path they were made from, a ray is
the mouse position it goes through, and a ray hits every box when the mouse is
at `x = 0`. -/

/-- An engine on which the update can be evaluated. -/
def demoEngine : Engine String String String Vector2 where
  LoadModel := fun path => ⟨fun _ => path, fun _ => ⟨fun _ => ⟨""⟩⟩⟩
  LoadTexture := fun path => path
  GetMeshBoundingBox := fun mesh => mesh
  GetMouseRay := fun mouse _ => mouse
  GetRayCollisionBoxHit := fun ray _ => decide (ray.x = 0)
  IsFileExtension := fun fileName ext => ext.data.isSuffixOf fileName.data

/-- A frame without input; the camera update moves the camera one unit along `x`. -/
def idleFrame : Frame where
  IsCursorHidden := true
  UpdateCamera := fun c _ => { c with position := ⟨c.position.x + 1, c.position.y, c.position.z⟩ }
  IsFileDropped := false
  LoadDroppedFiles := ⟨0, fun _ => ""⟩
  IsKeyPressedF3 := false
  IsMouseButtonPressedLeft := false
  GetMousePosition := ⟨0, 0⟩

/-- F3 is pressed, nothing else happens. -/
def f3Frame : Frame :=
  { idleFrame with IsKeyPressedF3 := true }

/-- A left click whose ray hits the box. -/
def clickHitFrame : Frame :=
  { idleFrame with IsMouseButtonPressedLeft := true }

/-- A left click whose ray misses the box. -/
def clickMissFrame : Frame :=
  { idleFrame with IsMouseButtonPressedLeft := true, GetMousePosition := ⟨1, 0⟩ }

/-- One file with the given path is dropped. -/
def dropFrame (path : String) : Frame :=
  { idleFrame with IsFileDropped := true, LoadDroppedFiles := ⟨1, fun _ => path⟩ }

/-- Two files are dropped. -/
def dropTwoFrame : Frame :=
  { idleFrame with IsFileDropped := true, LoadDroppedFiles := ⟨2, fun _ => "brain.obj"⟩ }

/-! ## What each part of the update leaves alone -/

section Frames

variable {Mesh Texture BoundingBox Ray : Type}

theorem cameraUpdate_spin (f : Frame) (s : State Mesh Texture BoundingBox) :
    (cameraUpdate f s).spin = s.spin := by
  unfold cameraUpdate; split <;> rfl

theorem cameraUpdate_camera_mode (f : Frame) (s : State Mesh Texture BoundingBox) :
    (cameraUpdate f s).camera_mode = s.camera_mode := by
  unfold cameraUpdate; split <;> rfl

theorem cameraUpdate_selected (f : Frame) (s : State Mesh Texture BoundingBox) :
    (cameraUpdate f s).selected = s.selected := by
  unfold cameraUpdate; split <;> rfl

theorem cameraUpdate_model (f : Frame) (s : State Mesh Texture BoundingBox) :
    (cameraUpdate f s).model = s.model := by
  unfold cameraUpdate; split <;> rfl

theorem cameraUpdate_bounds (f : Frame) (s : State Mesh Texture BoundingBox) :
    (cameraUpdate f s).bounds = s.bounds := by
  unfold cameraUpdate; split <;> rfl

theorem dropHandling_spin (E : Engine Mesh Texture BoundingBox Ray) (f : Frame)
    (s : State Mesh Texture BoundingBox) : (dropHandling E f s).spin = s.spin := by
  unfold dropHandling; dsimp only; split_ifs <;> rfl

theorem dropHandling_camera_mode (E : Engine Mesh Texture BoundingBox Ray) (f : Frame)
    (s : State Mesh Texture BoundingBox) :
    (dropHandling E f s).camera_mode = s.camera_mode := by
  unfold dropHandling; dsimp only; split_ifs <;> rfl

theorem dropHandling_selected (E : Engine Mesh Texture BoundingBox Ray) (f : Frame)
    (s : State Mesh Texture BoundingBox) : (dropHandling E f s).selected = s.selected := by
  unfold dropHandling; dsimp only; split_ifs <;> rfl

theorem diffuseTexture_setDiffuseTexture (m : Model Mesh Texture) (t : Texture) :
    diffuseTexture (setDiffuseTexture m t) = t := by
  simp [diffuseTexture, setDiffuseTexture]

theorem dropHandling_bounds_inv (E : Engine Mesh Texture BoundingBox Ray) (f : Frame)
    (s : State Mesh Texture BoundingBox)
    (h : s.bounds = E.GetMeshBoundingBox (s.model.meshes 0)) :
    (dropHandling E f s).bounds = E.GetMeshBoundingBox ((dropHandling E f s).model.meshes 0) := by
  unfold dropHandling; dsimp only; split_ifs <;> first | rfl | exact h

theorem f3Handling_selected (f : Frame) (s : State Mesh Texture BoundingBox) :
    (f3Handling f s).selected = s.selected := by
  unfold f3Handling; dsimp only; split_ifs <;> rfl

theorem f3Handling_model (f : Frame) (s : State Mesh Texture BoundingBox) :
    (f3Handling f s).model = s.model := by
  unfold f3Handling; dsimp only; split_ifs <;> rfl

theorem f3Handling_bounds (f : Frame) (s : State Mesh Texture BoundingBox) :
    (f3Handling f s).bounds = s.bounds := by
  unfold f3Handling; dsimp only; split_ifs <;> rfl

theorem clickHandling_spin (E : Engine Mesh Texture BoundingBox Ray) (f : Frame)
    (s : State Mesh Texture BoundingBox) : (clickHandling E f s).spin = s.spin := by
  unfold clickHandling; dsimp only; split_ifs <;> rfl

theorem clickHandling_model (E : Engine Mesh Texture BoundingBox Ray) (f : Frame)
    (s : State Mesh Texture BoundingBox) : (clickHandling E f s).model = s.model := by
  unfold clickHandling; dsimp only; split_ifs <;> rfl

theorem clickHandling_bounds (E : Engine Mesh Texture BoundingBox Ray) (f : Frame)
    (s : State Mesh Texture BoundingBox) : (clickHandling E f s).bounds = s.bounds := by
  unfold clickHandling; dsimp only; split_ifs <;> rfl

theorem clickHandling_idle (E : Engine Mesh Texture BoundingBox Ray) (f : Frame)
    (s : State Mesh Texture BoundingBox) (h : f.IsMouseButtonPressedLeft = false) :
    clickHandling E f s = s := by
  simp [clickHandling, h]

theorem free_ne_orbital : CAMERA_FREE ≠ CAMERA_ORBITAL := by decide

theorem f3Handling_camera_mode (f : Frame) (s : State Mesh Texture BoundingBox) :
    (f3Handling f s).camera_mode = s.camera_mode ∨
      (f3Handling f s).camera_mode = CAMERA_ORBITAL ∨
      (f3Handling f s).camera_mode = CAMERA_FREE := by
  unfold f3Handling; dsimp only; split_ifs <;> simp

theorem clickHandling_camera_mode (E : Engine Mesh Texture BoundingBox Ray) (f : Frame)
    (s : State Mesh Texture BoundingBox) :
    (clickHandling E f s).camera_mode = s.camera_mode ∨
      (clickHandling E f s).camera_mode = CAMERA_FREE := by
  unfold clickHandling; split_ifs <;> simp

/-- The F3 handling keeps `camera_mode = CAMERA_ORBITAL → spin = true`. -/
theorem f3Handling_orbital_spin (f : Frame) (s : State Mesh Texture BoundingBox)
    (h : s.camera_mode = CAMERA_ORBITAL → s.spin = true) :
    (f3Handling f s).camera_mode = CAMERA_ORBITAL → (f3Handling f s).spin = true := by
  unfold f3Handling; dsimp only
  split_ifs with h3 hs
  · intro _; exact hs
  · intro hm; exact absurd hm free_ne_orbital
  · exact h

/-- The state after a frame in which F3 is pressed and the left button is not. -/
theorem frameUpdate_f3_only (E : Engine Mesh Texture BoundingBox Ray) (f : Frame)
    (s : State Mesh Texture BoundingBox)
    (h3 : f.IsKeyPressedF3 = true) (hc : f.IsMouseButtonPressedLeft = false) :
    (frameUpdate E f s).spin = (!s.spin) ∧
      (frameUpdate E f s).camera_mode = (if s.spin then CAMERA_FREE else CAMERA_ORBITAL) ∧
      (frameUpdate E f s).camera =
        ⟨if s.spin then ⟨60, 50, 80⟩ else ⟨100, 60, 80⟩, ⟨0, 0, 0⟩, ⟨0, 1, 0⟩, 45,
          CAMERA_PERSPECTIVE⟩ := by
  have hs : (dropHandling E f (cameraUpdate f s)).spin = s.spin := by
    rw [dropHandling_spin, cameraUpdate_spin]
  unfold frameUpdate
  rw [clickHandling_idle E f _ hc]
  unfold beforeClick f3Handling
  cases hsp : s.spin <;> simp [h3, hs, hsp]

/-- Every run from the initial state ends in a reachable state. -/
theorem reachable_run (E : Engine Mesh Texture BoundingBox Ray) (fs : List Frame) :
    ∀ s : State Mesh Texture BoundingBox, Reachable E s → Reachable E (run E fs s) := by
  induction fs with
  | nil => intro s h; exact h
  | cons f fs ih => intro s h; exact ih _ (Reachable.frame f s h)

end Frames

/-! ## The claims -/

section Claims

variable {Mesh Texture BoundingBox Ray : Type}

/-- C1: the F3 handling takes the new camera mode from `spin`, which the click
handling does not keep in step with the mode.  After a click that hits the
box (a state reachable from the initial one, with `spin` true and the mode
`CAMERA_FREE`), a frame in which F3 is pressed and the left button is not
leaves the mode `CAMERA_FREE` instead of changing it to `CAMERA_ORBITAL`. -/
theorem f3_after_click_keeps_camera_free :
    Reachable demoEngine (frameUpdate demoEngine clickHitFrame (initial demoEngine)) ∧
      f3Frame.IsKeyPressedF3 = true ∧ f3Frame.IsMouseButtonPressedLeft = false ∧
      (frameUpdate demoEngine clickHitFrame (initial demoEngine)).spin = true ∧
      (frameUpdate demoEngine clickHitFrame (initial demoEngine)).camera_mode = CAMERA_FREE ∧
      (frameUpdate demoEngine f3Frame
        (frameUpdate demoEngine clickHitFrame (initial demoEngine))).camera_mode = CAMERA_FREE ∧
      CAMERA_FREE ≠ CAMERA_ORBITAL :=
  ⟨Reachable.frame _ _ Reachable.start, rfl, rfl, rfl, rfl, rfl, by decide⟩

/-- C2: over a whole frame, a left click whose ray hits `bounds` negates
`selected`, a left click whose ray misses `bounds` clears it, and a frame
without a left click leaves it as it was. -/
theorem click_updates_selected (E : Engine Mesh Texture BoundingBox Ray) (f : Frame)
    (s : State Mesh Texture BoundingBox) :
    (f.IsMouseButtonPressedLeft = true → rayHitsBounds E f (beforeClick E f s) = true →
        (frameUpdate E f s).selected = !s.selected) ∧
      (f.IsMouseButtonPressedLeft = true → rayHitsBounds E f (beforeClick E f s) = false →
        (frameUpdate E f s).selected = false) ∧
      (f.IsMouseButtonPressedLeft = false → (frameUpdate E f s).selected = s.selected) := by
  have hsel : (beforeClick E f s).selected = s.selected := by
    unfold beforeClick
    rw [f3Handling_selected, dropHandling_selected, cameraUpdate_selected]
  refine ⟨fun hp hh => ?_, fun hp hh => ?_, fun hp => ?_⟩
  · simp [frameUpdate, clickHandling, hp, hh, hsel]
  · simp [frameUpdate, clickHandling, hp, hh]
  · simp [frameUpdate, clickHandling, hp, hsel]

/-- Witness of C2: a hitting click in the initial state selects the model, a
missing click in the state after it clears the selection again, and an idle
frame keeps the selection. -/
theorem click_updates_selected_witness :
    (frameUpdate demoEngine clickHitFrame (initial demoEngine)).selected
        = !(initial demoEngine).selected ∧
      (frameUpdate demoEngine clickMissFrame
        (frameUpdate demoEngine clickHitFrame (initial demoEngine))).selected = false ∧
      (frameUpdate demoEngine idleFrame
        (frameUpdate demoEngine clickHitFrame (initial demoEngine))).selected
        = (frameUpdate demoEngine clickHitFrame (initial demoEngine)).selected :=
  ⟨(click_updates_selected demoEngine clickHitFrame (initial demoEngine)).1 rfl (by decide),
    (click_updates_selected demoEngine clickMissFrame
      (frameUpdate demoEngine clickHitFrame (initial demoEngine))).2.1 rfl (by decide),
    (click_updates_selected demoEngine idleFrame
      (frameUpdate demoEngine clickHitFrame (initial demoEngine))).2.2 rfl⟩

/-- C3: when exactly one file is dropped and it has one of the model file
extensions, the drop handling makes the outer model the model loaded from that
path with its material 0 diffuse texture set to the current `texture`, makes
`bounds` the bounding box of mesh 0 of the new model, and keeps `texture`. -/
theorem drop_model_file (E : Engine Mesh Texture BoundingBox Ray) (f : Frame)
    (s : State Mesh Texture BoundingBox)
    (hdrop : f.IsFileDropped = true) (hone : f.LoadDroppedFiles.count = 1)
    (hext : E.IsFileExtension (f.LoadDroppedFiles.paths 0) ".obj" = true ∨
      E.IsFileExtension (f.LoadDroppedFiles.paths 0) ".gltf" = true ∨
      E.IsFileExtension (f.LoadDroppedFiles.paths 0) ".glb" = true ∨
      E.IsFileExtension (f.LoadDroppedFiles.paths 0) ".vox" = true ∨
      E.IsFileExtension (f.LoadDroppedFiles.paths 0) ".iqm" = true ∨
      E.IsFileExtension (f.LoadDroppedFiles.paths 0) ".m3d" = true) :
    (dropHandling E f s).model
        = setDiffuseTexture (E.LoadModel (f.LoadDroppedFiles.paths 0)) s.texture ∧
      (dropHandling E f s).model.meshes = (E.LoadModel (f.LoadDroppedFiles.paths 0)).meshes ∧
      diffuseTexture (dropHandling E f s).model = s.texture ∧
      (dropHandling E f s).bounds
        = E.GetMeshBoundingBox ((dropHandling E f s).model.meshes 0) ∧
      (dropHandling E f s).texture = s.texture := by
  have hm : isModelFile E (f.LoadDroppedFiles.paths 0) = true := by
    simp only [isModelFile, Bool.or_eq_true]
    tauto
  have hs : dropHandling E f s =
      { s with
        model := setDiffuseTexture (E.LoadModel (f.LoadDroppedFiles.paths 0)) s.texture
        bounds := E.GetMeshBoundingBox
          ((setDiffuseTexture (E.LoadModel (f.LoadDroppedFiles.paths 0)) s.texture).meshes 0) } := by
    simp [dropHandling, hdrop, hone, hm]
  rw [hs]
  exact ⟨rfl, rfl, diffuseTexture_setDiffuseTexture _ _, rfl, rfl⟩

/-- Witness of C3: dropping `brain.glb` on the initial state. -/
theorem drop_model_file_witness :
    (dropHandling demoEngine (dropFrame "brain.glb") (initial demoEngine)).model
        = setDiffuseTexture (demoEngine.LoadModel "brain.glb") (initial demoEngine).texture ∧
      (dropHandling demoEngine (dropFrame "brain.glb") (initial demoEngine)).model.meshes
        = (demoEngine.LoadModel "brain.glb").meshes ∧
      diffuseTexture (dropHandling demoEngine (dropFrame "brain.glb") (initial demoEngine)).model
        = "9_brain/textures/test_Albedo.png" ∧
      (dropHandling demoEngine (dropFrame "brain.glb") (initial demoEngine)).bounds
        = "brain.glb" ∧
      (dropHandling demoEngine (dropFrame "brain.glb") (initial demoEngine)).texture
        = "9_brain/textures/test_Albedo.png" :=
  drop_model_file demoEngine (dropFrame "brain.glb") (initial demoEngine) rfl rfl
    (Or.inr (Or.inr (Or.inl (by decide))))

/-- C4: when exactly one file is dropped and it has the extension `.png` and
none of the model file extensions, the drop handling makes `texture` the
texture loaded from that path and the material 0 diffuse texture of the outer
model that same texture, and keeps the meshes of the outer model and `bounds`. -/
theorem drop_texture_file (E : Engine Mesh Texture BoundingBox Ray) (f : Frame)
    (s : State Mesh Texture BoundingBox)
    (hdrop : f.IsFileDropped = true) (hone : f.LoadDroppedFiles.count = 1)
    (hpng : E.IsFileExtension (f.LoadDroppedFiles.paths 0) ".png" = true)
    (hext : E.IsFileExtension (f.LoadDroppedFiles.paths 0) ".obj" = false ∧
      E.IsFileExtension (f.LoadDroppedFiles.paths 0) ".gltf" = false ∧
      E.IsFileExtension (f.LoadDroppedFiles.paths 0) ".glb" = false ∧
      E.IsFileExtension (f.LoadDroppedFiles.paths 0) ".vox" = false ∧
      E.IsFileExtension (f.LoadDroppedFiles.paths 0) ".iqm" = false ∧
      E.IsFileExtension (f.LoadDroppedFiles.paths 0) ".m3d" = false) :
    (dropHandling E f s).texture = E.LoadTexture (f.LoadDroppedFiles.paths 0) ∧
      diffuseTexture (dropHandling E f s).model = E.LoadTexture (f.LoadDroppedFiles.paths 0) ∧
      (dropHandling E f s).model.meshes = s.model.meshes ∧
      (dropHandling E f s).bounds = s.bounds := by
  obtain ⟨h1, h2, h3, h4, h5, h6⟩ := hext
  have hm : isModelFile E (f.LoadDroppedFiles.paths 0) = false := by
    simp [isModelFile, h1, h2, h3, h4, h5, h6]
  have hs : dropHandling E f s =
      { s with
        texture := E.LoadTexture (f.LoadDroppedFiles.paths 0)
        model := setDiffuseTexture s.model (E.LoadTexture (f.LoadDroppedFiles.paths 0)) } := by
    simp [dropHandling, hdrop, hone, hm, hpng]
  rw [hs]
  exact ⟨rfl, diffuseTexture_setDiffuseTexture _ _, rfl, rfl⟩

/-- Witness of C4: dropping `skin.png` on the initial state. -/
theorem drop_texture_file_witness :
    (dropHandling demoEngine (dropFrame "skin.png") (initial demoEngine)).texture = "skin.png" ∧
      diffuseTexture (dropHandling demoEngine (dropFrame "skin.png") (initial demoEngine)).model
        = "skin.png" ∧
      (dropHandling demoEngine (dropFrame "skin.png") (initial demoEngine)).model.meshes
        = (initial demoEngine).model.meshes ∧
      (dropHandling demoEngine (dropFrame "skin.png") (initial demoEngine)).bounds
        = "9_brain/source/test.obj" :=
  drop_texture_file demoEngine (dropFrame "skin.png") (initial demoEngine) rfl rfl
    (by decide) (by decide)

/-- C5: when files are dropped but their number is not 1, or the single file
has none of the extensions `.obj`, `.gltf`, `.glb`, `.vox`, `.iqm`, `.m3d`,
`.png`, the drop handling keeps the outer model, `texture` and `bounds`. -/
theorem drop_unsupported (E : Engine Mesh Texture BoundingBox Ray) (f : Frame)
    (s : State Mesh Texture BoundingBox)
    (hdrop : f.IsFileDropped = true)
    (h : f.LoadDroppedFiles.count ≠ 1 ∨
      (E.IsFileExtension (f.LoadDroppedFiles.paths 0) ".obj" = false ∧
        E.IsFileExtension (f.LoadDroppedFiles.paths 0) ".gltf" = false ∧
        E.IsFileExtension (f.LoadDroppedFiles.paths 0) ".glb" = false ∧
        E.IsFileExtension (f.LoadDroppedFiles.paths 0) ".vox" = false ∧
        E.IsFileExtension (f.LoadDroppedFiles.paths 0) ".iqm" = false ∧
        E.IsFileExtension (f.LoadDroppedFiles.paths 0) ".m3d" = false ∧
        E.IsFileExtension (f.LoadDroppedFiles.paths 0) ".png" = false)) :
    (dropHandling E f s).model = s.model ∧
      (dropHandling E f s).texture = s.texture ∧
      (dropHandling E f s).bounds = s.bounds := by
  have hs : dropHandling E f s = s := by
    rcases h with hc | ⟨h1, h2, h3, h4, h5, h6, h7⟩
    · simp [dropHandling, hdrop, hc]
    · simp [dropHandling, isModelFile, hdrop, h1, h2, h3, h4, h5, h6, h7]
  rw [hs]
  exact ⟨rfl, rfl, rfl⟩

/-- Witness of C5: two files dropped at once, and one dropped text file. -/
theorem drop_unsupported_witness :
    ((dropHandling demoEngine dropTwoFrame (initial demoEngine)).model
        = (initial demoEngine).model ∧
      (dropHandling demoEngine dropTwoFrame (initial demoEngine)).texture
        = (initial demoEngine).texture ∧
      (dropHandling demoEngine dropTwoFrame (initial demoEngine)).bounds
        = (initial demoEngine).bounds) ∧
    ((dropHandling demoEngine (dropFrame "notes.txt") (initial demoEngine)).model
        = (initial demoEngine).model ∧
      (dropHandling demoEngine (dropFrame "notes.txt") (initial demoEngine)).texture
        = (initial demoEngine).texture ∧
      (dropHandling demoEngine (dropFrame "notes.txt") (initial demoEngine)).bounds
        = (initial demoEngine).bounds) :=
  ⟨drop_unsupported demoEngine dropTwoFrame (initial demoEngine) rfl (Or.inl (by decide)),
    drop_unsupported demoEngine (dropFrame "notes.txt") (initial demoEngine) rfl
      (Or.inr (by decide))⟩

/-- C6: in every state reachable from the initial state, `camera_mode` is
`CAMERA_ORBITAL` or `CAMERA_FREE`. -/
theorem camera_mode_orbital_or_free (E : Engine Mesh Texture BoundingBox Ray)
    (s : State Mesh Texture BoundingBox) (h : Reachable E s) :
    s.camera_mode = CAMERA_ORBITAL ∨ s.camera_mode = CAMERA_FREE := by
  induction h with
  | start => exact Or.inl rfl
  | frame f s _ ih =>
    have h0 : (dropHandling E f (cameraUpdate f s)).camera_mode = s.camera_mode := by
      rw [dropHandling_camera_mode, cameraUpdate_camera_mode]
    have h1 := f3Handling_camera_mode f (dropHandling E f (cameraUpdate f s))
    have h2 := clickHandling_camera_mode E f (beforeClick E f s)
    unfold frameUpdate
    unfold beforeClick at h2 ⊢
    rcases h2 with h2 | h2
    · rw [h2]
      rcases h1 with h1 | h1 | h1
      · rw [h1, h0]; exact ih
      · exact Or.inl h1
      · exact Or.inr h1
    · exact Or.inr h2

/-- Witness of C6: the state after an F3 frame, a hitting click and a dropped model. -/
theorem camera_mode_orbital_or_free_witness :
    (run demoEngine [f3Frame, clickHitFrame, dropFrame "brain.obj"]
        (initial demoEngine)).camera_mode = CAMERA_ORBITAL ∨
      (run demoEngine [f3Frame, clickHitFrame, dropFrame "brain.obj"]
        (initial demoEngine)).camera_mode = CAMERA_FREE :=
  camera_mode_orbital_or_free demoEngine _ (reachable_run demoEngine _ _ Reachable.start)

/-- C7: in every state reachable from the initial state, `bounds` is the
bounding box of mesh 0 of the current outer model. -/
theorem bounds_of_current_model (E : Engine Mesh Texture BoundingBox Ray)
    (s : State Mesh Texture BoundingBox) (h : Reachable E s) :
    s.bounds = E.GetMeshBoundingBox (s.model.meshes 0) := by
  induction h with
  | start => rfl
  | frame f s _ ih =>
    unfold frameUpdate beforeClick
    rw [clickHandling_bounds, clickHandling_model, f3Handling_bounds, f3Handling_model]
    apply dropHandling_bounds_inv
    rw [cameraUpdate_bounds, cameraUpdate_model]
    exact ih

/-- Witness of C7: after a dropped texture, a dropped model and a hitting
click the box is the one of the dropped model. -/
theorem bounds_of_current_model_witness :
    (run demoEngine [dropFrame "skin.png", dropFrame "brain.obj", clickHitFrame]
        (initial demoEngine)).bounds
      = demoEngine.GetMeshBoundingBox
          ((run demoEngine [dropFrame "skin.png", dropFrame "brain.obj", clickHitFrame]
            (initial demoEngine)).model.meshes 0) :=
  bounds_of_current_model demoEngine _ (reachable_run demoEngine _ _ Reachable.start)

/-- C8: in every state reachable from the initial state, `camera_mode =
CAMERA_ORBITAL` implies `spin = true`. -/
theorem orbital_implies_spin (E : Engine Mesh Texture BoundingBox Ray)
    (s : State Mesh Texture BoundingBox) (h : Reachable E s)
    (hm : s.camera_mode = CAMERA_ORBITAL) : s.spin = true := by
  revert hm
  induction h with
  | start => intro _; rfl
  | frame f s _ ih =>
    have h0 : (dropHandling E f (cameraUpdate f s)).camera_mode = CAMERA_ORBITAL →
        (dropHandling E f (cameraUpdate f s)).spin = true := by
      rw [dropHandling_camera_mode, cameraUpdate_camera_mode, dropHandling_spin,
        cameraUpdate_spin]
      exact ih
    have h1 := f3Handling_orbital_spin f _ h0
    have h2 := clickHandling_camera_mode E f (beforeClick E f s)
    unfold frameUpdate
    rw [clickHandling_spin]
    unfold beforeClick at h2 ⊢
    intro hm
    rcases h2 with h2 | h2
    · exact h1 (h2 ▸ hm)
    · rw [h2] at hm
      exact absurd hm free_ne_orbital

/-- Witness of C8: two F3 frames from the initial state end in the orbital
mode, with `spin` true. -/
theorem orbital_implies_spin_witness :
    (run demoEngine [f3Frame, f3Frame] (initial demoEngine)).camera_mode = CAMERA_ORBITAL ∧
      (run demoEngine [f3Frame, f3Frame] (initial demoEngine)).spin = true :=
  ⟨rfl, orbital_implies_spin demoEngine _ (reachable_run demoEngine _ _ Reachable.start) rfl⟩

/-- C9, as stated, fails: after two F3 frames from the initial state, without
a dropped file or a click, the camera target is not the initial `(0, 10, 0)`,
so the initial values of all camera fields are not restored. -/
theorem f3_twice_does_not_restore_target :
    f3Frame.IsKeyPressedF3 = true ∧ f3Frame.IsFileDropped = false ∧
      f3Frame.IsMouseButtonPressedLeft = false ∧
      (initial demoEngine).camera.target = ⟨0, 10, 0⟩ ∧
      (run demoEngine [f3Frame, f3Frame] (initial demoEngine)).camera.target ≠ ⟨0, 10, 0⟩ ∧
      ¬ ((run demoEngine [f3Frame, f3Frame] (initial demoEngine)).spin
            = (initial demoEngine).spin ∧
          (run demoEngine [f3Frame, f3Frame] (initial demoEngine)).camera_mode
            = (initial demoEngine).camera_mode ∧
          (run demoEngine [f3Frame, f3Frame] (initial demoEngine)).camera
            = (initial demoEngine).camera) := by
  refine ⟨rfl, rfl, rfl, rfl, by decide, ?_⟩
  rintro ⟨_, _, hc⟩
  exact absurd (congrArg (fun c => c.target) hc) (by decide)

/-- C9, amended: pressing F3 in two consecutive frames from the initial
state, with no file dropped and no click in either frame, restores the initial
values of `spin`, `camera_mode` and of the camera position, up vector, field
of view and projection. -/
theorem f3_twice_restores (E : Engine Mesh Texture BoundingBox Ray) (f₁ f₂ : Frame)
    (h₁ : f₁.IsKeyPressedF3 = true) (_d₁ : f₁.IsFileDropped = false)
    (c₁ : f₁.IsMouseButtonPressedLeft = false)
    (h₂ : f₂.IsKeyPressedF3 = true) (_d₂ : f₂.IsFileDropped = false)
    (c₂ : f₂.IsMouseButtonPressedLeft = false) :
    (run E [f₁, f₂] (initial E)).spin = true ∧
      (run E [f₁, f₂] (initial E)).camera_mode = CAMERA_ORBITAL ∧
      (run E [f₁, f₂] (initial E)).camera.position = ⟨100, 60, 80⟩ ∧
      (run E [f₁, f₂] (initial E)).camera.up = ⟨0, 1, 0⟩ ∧
      (run E [f₁, f₂] (initial E)).camera.fovy = 45 ∧
      (run E [f₁, f₂] (initial E)).camera.projection = CAMERA_PERSPECTIVE := by
  obtain ⟨a₁, _, _⟩ := frameUpdate_f3_only E f₁ (initial E) h₁ c₁
  obtain ⟨a₂, m₂, k₂⟩ := frameUpdate_f3_only E f₂ (frameUpdate E f₁ (initial E)) h₂ c₂
  have hsp : (frameUpdate E f₁ (initial E)).spin = false := by rw [a₁]; rfl
  rw [hsp] at a₂ m₂ k₂
  simp only [run]
  rw [a₂, m₂, k₂]
  simp

/-- Witness of C9 amended: two F3 frames on the concrete engine. -/
theorem f3_twice_restores_witness :
    (run demoEngine [f3Frame, f3Frame] (initial demoEngine)).spin = true ∧
      (run demoEngine [f3Frame, f3Frame] (initial demoEngine)).camera_mode = CAMERA_ORBITAL ∧
      (run demoEngine [f3Frame, f3Frame] (initial demoEngine)).camera.position = ⟨100, 60, 80⟩ ∧
      (run demoEngine [f3Frame, f3Frame] (initial demoEngine)).camera.up = ⟨0, 1, 0⟩ ∧
      (run demoEngine [f3Frame, f3Frame] (initial demoEngine)).camera.fovy = 45 ∧
      (run demoEngine [f3Frame, f3Frame] (initial demoEngine)).camera.projection
        = CAMERA_PERSPECTIVE :=
  f3_twice_restores demoEngine f3Frame f3Frame rfl rfl rfl rfl rfl rfl

end Claims

end ModelsLoading
